import Mathlib

/-!
Verification of the garrison backup orchestrator against its specification.

The development shallowly embeds the two source files of the repository:

* src/garrison/containers.py — runtime-facing helpers: container discovery and
  eligibility filtering (get_enabled_containers), volume selection
  (get_included_container_volumes), job launch with start-wait
  (run_backup_container), exit-status query (get_container_exit_status) and
  removal (remove_container);
* src/garrison/__main__.py — the orchestrator: extra-volume parsing
  (_get_extra_volumes_for_backup_container), per-pair launch (_trigger_backup)
  and main's three phases (launch loop, completion wait loop, cleanup loop).

The container runtime (docker) is an external collaborator: its responses are
inputs of the model (a World record of response functions), and each embedded
operation is a pure function of those inputs.  Fallible Python code (raised
exceptions) is embedded as Except Err.  Time is discrete: one unit per
time.sleep(1); a status function Nat → String gives the runtime-reported state
at each tick.
-/

namespace Garrison

/-- Errors the embedded code can raise, mirroring the Python exceptions:
str.format's KeyError and ValueError, list indexing's IndexError, docker's
APIError carrying an HTTP status code, and garrison's own
ContainerNotStartedException. -/
inductive Err where
  | keyError (key : String)
  | valueError
  | indexError
  | apiError (statusCode : Nat)
  | containerNotStarted (name : String)
deriving DecidableEq

/-- ContainerInfo of containers.py: the immutable snapshot taken at discovery
time (id, name, label map, optional compose project, image, environment). -/
structure ContainerInfo where
  id : String
  name : String
  labels : List (String × String)
  project : Option String
  image : String
  environment : List (String × String)
deriving DecidableEq

/-- One entry of a container's runtime-reported Mounts list: its Type, its
optional Name key (absent for raw bind mounts), Source and Destination. -/
structure Mount where
  type : String
  name : Option String
  source : String
  destination : String
deriving DecidableEq

/-- VolumeInfo of containers.py, built from a selected Mount. -/
structure VolumeInfo where
  type : String
  name : Option String
  source : String
  destination : String
deriving DecidableEq

/-- Modelled from the spec: constants.py is not part of src/, so the label key
strings are taken from the spec's wording (the eligibility label appears as
garrison.enable in the spec's scenario section; the remaining keys are given
plausible names).  No theorem below depends on the key strings' values, only
on the keys being looked up in a container's label map. -/
def ENABLE_LABEL : String := "garrison.enable"

/-- Modelled from the spec: the include-list label key (see ENABLE_LABEL). -/
def VOLUME_INCLUDE_LABEL : String := "garrison.volumes.include"

/-- Modelled from the spec: the exclude-list label key (see ENABLE_LABEL). -/
def VOLUME_EXCLUDE_LABEL : String := "garrison.volumes.exclude"

/-- Modelled from the spec: the bind-mount opt-in label key (see ENABLE_LABEL). -/
def INCLUDE_BIND_MOUNTS_LABEL : String := "garrison.include-bind-mounts"

/-- Python dict lookup labels.get(k): the value at the first matching key. -/
def lget (labels : List (String × String)) (k : String) : Option String :=
  List.lookup k labels

/-- Python dict lookup with default, labels.get(k, d). -/
def lgetD (labels : List (String × String)) (k d : String) : String :=
  (lget labels k).getD d

/-- List-level "p is a front segment of s", used to embed Python's
str.startswith and str.removeprefix over the character lists. -/
def listIsPre : List Char → List Char → Bool
  | [], _ => true
  | _ :: _, [] => false
  | p :: ps, c :: cs => p == c && listIsPre ps cs

/-- Python str.startswith(p). -/
def strStartsWith (s p : String) : Bool :=
  listIsPre p.data s.data

/-- The per-container body of get_enabled_containers' loop
(containers.py lines 86-105): reject a leftover garrison_ job container,
reject an explicitly disabled container (default-enabled), and, when
require_enabled is set, reject unless the label is explicitly "true". -/
def keepContainer (require_enabled : Bool) (c : ContainerInfo) : Bool :=
  if strStartsWith c.name "garrison_" = true then false
  else if lgetD c.labels ENABLE_LABEL "true" = "false" then false
  else if require_enabled = true ∧ lgetD c.labels ENABLE_LABEL "false" ≠ "true" then false
  else true

/-- get_enabled_containers (containers.py lines 54-106).  The runtime's
container listing and the tool's own container id (socket.gethostname
resolved through the runtime, None when not found) are inputs; the loop
skips the tool itself, then applies keepContainer, preserving order. -/
def get_enabled_containers (self_container : Option String)
    (containers : List ContainerInfo) (require_enabled : Bool) : List ContainerInfo :=
  containers.filter fun c =>
    if self_container = some c.id then false else keepContainer require_enabled c

/-- Python str.removeprefix: drop p from the front of s when present. -/
def dropPre (s p : String) : String :=
  if strStartsWith s p then String.mk (s.data.drop p.data.length) else s

/-- The project-prefix strip applied to a volume name
(containers.py lines 134-136): only a truthy project (present and non-empty)
strips, mirroring Python's `if container["project"]`. -/
def dropProjectPre (project : Option String) (n : String) : String :=
  match project with
  | some p => if p ≠ "" then dropPre n (p ++ "_") else n
  | none => n

/-- The name a mount is filtered under (containers.py line 133):
volume.get("Name", volume["Source"]) with the project prefix stripped —
a mount with no Name key falls back to its Source path. -/
def effectiveVolumeName (project : Option String) (m : Mount) : String :=
  dropProjectPre project (m.name.getD m.source)

/-- Python str.split(sep) on a one-character separator, over the character
list: "" yields [""], and separators at the ends yield empty fields, exactly
as in Python.  The source only ever splits on "," and ":". -/
def splitOnChar (sep : Char) : List Char → List (List Char)
  | [] => [[]]
  | c :: rest =>
    match splitOnChar sep rest with
    | [] => [[]]
    | h :: t => if c = sep then [] :: h :: t else (c :: h) :: t

/-- See splitOnChar. -/
def pySplit (s : String) (sep : Char) : List String :=
  (splitOnChar sep s.data).map String.mk

/-- The include/exclude label value as the membership test sees it
(containers.py lines 123-128): an absent label means no restriction; a
present label is split on commas.  Python leaves the empty string unsplit
(falsy), but membership of a name in the string "" agrees with membership in
[""], which is what the split returns, so one equation covers both. -/
def parseVolLabel (v : Option String) : Option (List String) :=
  v.map fun s => pySplit s ','

/-- The include-list skip test (containers.py line 143):
skip when a list exists and the name is absent from it. -/
def incSkip (inc : Option (List String)) (n : String) : Bool :=
  match inc with
  | none => false
  | some l => decide (n ∉ l)

/-- The exclude-list skip test (containers.py line 149):
skip when a list exists and the name is present in it. -/
def excSkip (exc : Option (List String)) (n : String) : Bool :=
  match exc with
  | none => false
  | some l => decide (n ∈ l)

/-- The per-mount decision of get_included_container_volumes' loop
(containers.py lines 132-154): skip bind mounts unless opted in, then apply
the include-list and exclude-list tests to the effective name. -/
def mountIncluded (inc exc : Option (List String)) (include_bind_mount : Bool)
    (project : Option String) (m : Mount) : Bool :=
  let n := effectiveVolumeName project m
  if include_bind_mount = false ∧ m.type = "bind" then false
  else if incSkip inc n = true then false
  else if excSkip exc n = true then false
  else true

/-- The VolumeInfo dict appended for a selected mount
(containers.py lines 155-162). -/
def toVolumeInfo (m : Mount) : VolumeInfo :=
  { type := m.type, name := m.name, source := m.source, destination := m.destination }

/-- The loop of get_included_container_volumes over the runtime-reported
mounts, preserving order. -/
def selectMounts (inc exc : Option (List String)) (include_bind_mount : Bool)
    (project : Option String) : List Mount → List VolumeInfo
  | [] => []
  | m :: rest =>
    if mountIncluded inc exc include_bind_mount project m then
      toVolumeInfo m :: selectMounts inc exc include_bind_mount project rest
    else
      selectMounts inc exc include_bind_mount project rest

/-- get_included_container_volumes (containers.py lines 109-163).  The
runtime's current Mounts answer for the container is an input (the code
re-queries the runtime by id). -/
def get_included_container_volumes (container : ContainerInfo) (mounts : List Mount)
    (include_bind_mount : Bool) : List VolumeInfo :=
  selectMounts (parseVolLabel (lget container.labels VOLUME_INCLUDE_LABEL))
    (parseVolLabel (lget container.labels VOLUME_EXCLUDE_LABEL))
    include_bind_mount container.project mounts

/-- One value of the volumes dict passed to the runtime's run call:
docker-py's {"bind": destination, "mode": mode}. -/
structure VolumeSpec where
  bind : String
  mode : String
deriving DecidableEq

/-- The volumes dict: keys are volume["name"] values (None for a nameless
mount) or extra-volume sources.  Python dict insertion order with
last-write-wins is modelled by setKey below. -/
def VolMap := List (Option String × VolumeSpec)
deriving DecidableEq

/-- Python dict assignment d[k] = v: replace the value in place when the key
exists, append otherwise. -/
def setKey (k : Option String) (v : VolumeSpec) : VolMap → VolMap
  | [] => [(k, v)]
  | (k1, v1) :: rest =>
    if k1 = k then (k, v) :: rest else (k1, v1) :: setKey k v rest

/-- Python dict lookup d.get(k): the value at the key, if any. -/
def lookupKey : VolMap → Option String → Option VolumeSpec
  | [], _ => none
  | (k1, v1) :: rest, k => if k1 = k then some v1 else lookupKey rest k

/-- volume_str.split(":") with the default mode appended for a two-field
entry (__main__.py lines 44-46): source:dest becomes source:dest:rw. -/
def volumeParts (entry : String) : List String :=
  let parts := pySplit entry ':'
  if parts.length = 2 then parts ++ ["rw"] else parts

/-- The loop of _get_extra_volumes_for_backup_container (__main__.py lines
41-50) over the comma-separated entries: an empty entry is skipped, a
two-field entry gets mode "rw", and the indexing volume_parts[1] of a
single-field entry raises IndexError. -/
def parseVolumeEntries (acc : VolMap) : List String → Except Err VolMap
  | [] => .ok acc
  | entry :: rest =>
    if entry = "" then parseVolumeEntries acc rest
    else
      match volumeParts entry with
      | p0 :: p1 :: p2 :: _ => parseVolumeEntries (setKey (some p0) ⟨p1, p2⟩ acc) rest
      | _ => .error .indexError

/-- _get_extra_volumes_for_backup_container (__main__.py lines 39-51),
applied to the BACKUP_CONTAINER_VOLUMES configuration string. -/
def get_extra_volumes_for_backup_container (spec : String) : Except Err VolMap :=
  parseVolumeEntries [] (pySplit spec ',')

/-- Python str.format over named fields, as a character state machine: the
second argument is none outside a replacement field and some acc (the field
name read so far, reversed) inside one.  "{{" and "}}" are brace escapes; an
unknown field name raises KeyError, a lone or unterminated brace ValueError.
The model covers the plain {name} fields the backup command template uses
(no conversions, format specs or positional fields). -/
def pyFormatAux (vals : List (String × String)) :
    List Char → Option (List Char) → Except Err (List Char)
  | [], none => .ok []
  | [], some _ => .error .valueError
  | c :: rest, some acc =>
    if c = '}' then
      match List.lookup (String.mk acc.reverse) vals with
      | none => .error (.keyError (String.mk acc.reverse))
      | some v => (pyFormatAux vals rest none).map fun out => v.data ++ out
    else pyFormatAux vals rest (some (c :: acc))
  | '{' :: '{' :: rest, none => (pyFormatAux vals rest none).map fun out => '{' :: out
  | '}' :: '}' :: rest, none => (pyFormatAux vals rest none).map fun out => '}' :: out
  | '{' :: rest, none => pyFormatAux vals rest (some [])
  | '}' :: _, none => .error .valueError
  | c :: rest, none => (pyFormatAux vals rest none).map fun out => c :: out

/-- template.format(**vals) (used at __main__.py lines 58-64). -/
def pyFormat (vals : List (String × String)) (template : String) : Except Err String :=
  (pyFormatAux vals template.data none).map String.mk

/-- How Python's str.format renders a non-string value: the project may be
None, which formats as "None". -/
def pyOptStr (o : Option String) : String :=
  match o with
  | none => "None"
  | some s => s

/-- volume["name"] or volume_hash (__main__.py line 62): Python `or` falls
through on the falsy values None and "". -/
def volumeNameOrHash (v : VolumeInfo) (hash : String) : String :=
  match v.name with
  | none => hash
  | some s => if s = "" then hash else s

/-- The keyword arguments of the command template's format call
(__main__.py lines 58-64). -/
def substitutions (server_name : String) (c : ContainerInfo) (v : VolumeInfo)
    (hash : String) : List (String × String) :=
  [("server_name", server_name), ("project_name", pyOptStr c.project),
   ("container_name", c.name), ("volume_name", volumeNameOrHash v hash),
   ("volume_path", v.destination)]

/-- The runtime's answer to containers.run: a started container's id, or an
APIError with an HTTP status code (409 when the name is taken). -/
inductive RunOutcome where
  | ok (id : String)
  | apiError (statusCode : Nat)
deriving DecidableEq

/-- The runtime's answer to a container removal: removed, a NotFound error,
or some other APIError. -/
inductive RemoveOutcome where
  | ok
  | notFound
  | apiError (statusCode : Nat)
deriving DecidableEq

/-- A container's inspected State: its Status string and ExitCode. -/
structure ContainerState where
  status : String
  exitCode : Int
deriving DecidableEq

/-- The container runtime and host environment as the orchestrator sees
them: every runtime response the code consumes is a field.  startStatus id t
is the status string container id reports t time-units after its run call;
md5hex abstracts hashlib.md5(...).hexdigest(), whose digest values no
verified property depends on. -/
structure World where
  self_container : Option String
  containers : List ContainerInfo
  mounts : String → List Mount
  runOutcome : String → RunOutcome
  startStatus : String → Nat → String
  md5hex : String → String
  osEnviron : List (String × String)

/-- The environment-derived configuration of __main__.py lines 32-36. -/
structure Config where
  BACKUP_CONTAINER_IMAGE : String
  BACKUP_CONTAINER_COMMAND : String
  BACKUP_CONTAINER_VOLUMES : String
  REQUIRE_ENABLE : Bool

/-- The start-wait loop of run_backup_container (containers.py lines
213-222): while the container's status is "created", raise
ContainerNotStartedException once more than 30 time-units have elapsed,
else sleep one unit and poll again.  t counts the completed sleeps. -/
def waitStarted (status : Nat → String) (name : String) (t : Nat) : Except Err Unit :=
  if status t ≠ "created" then .ok ()
  else if t > 30 then .error (.containerNotStarted name)
  else waitStarted status name (t + 1)
termination_by 31 - t
decreasing_by simp_wf; omega

/-- One unfolding of waitStarted. -/
theorem waitStarted_eq (status : Nat → String) (name : String) (t : Nat) :
    waitStarted status name t =
      if status t ≠ "created" then .ok ()
      else if t > 30 then .error (.containerNotStarted name)
      else waitStarted status name (t + 1) := by
  rw [waitStarted]

/-- The request run_backup_container submits to containers.run
(containers.py lines 195-202). -/
structure RunRequest where
  image : String
  command : String
  name : String
  environment : List (String × String)
  volumes : VolMap
deriving DecidableEq

/-- run_backup_container (containers.py lines 166-224).  An APIError with
status 409 is absorbed: the function logs and falls off with a bare return,
i.e. returns the sentinel None (.ok none); any other APIError re-raises.  On
success it waits for the container to leave the "created" state and returns
its id (.ok (some id)); waitStarted's timeout raises
ContainerNotStartedException and nothing removes the container. -/
def run_backup_container (w : World) (req : RunRequest) : Except Err (Option String) :=
  match w.runOutcome req.name with
  | .apiError code => if code = 409 then .ok none else .error (.apiError code)
  | .ok cid =>
    match waitStarted (w.startStatus cid) req.name 0 with
    | .error e => .error e
    | .ok _ => .ok (some cid)

/-- The deterministic job name f"garrison_{container['id']}_{volume_hash}"
(__main__.py line 68). -/
def jobName (w : World) (c : ContainerInfo) (v : VolumeInfo) : String :=
  "garrison_" ++ c.id ++ "_" ++ w.md5hex v.source

/-- The volumes dict of the run call (__main__.py lines 70-73):
{volume["name"]: {"bind": destination, "mode": "ro"}, **extra_volumes} —
keyed by the volume's Name (None for a nameless mount), with the extra
volumes merged after it, overriding on key collision. -/
def composeVolumes (v : VolumeInfo) (extra : VolMap) : VolMap :=
  extra.foldl (fun m p => setKey p.1 p.2 m) (setKey v.name ⟨v.destination, "ro"⟩ [])

/-- The argument construction of _trigger_backup (__main__.py lines 54-74):
parse the extra volumes, hash the volume source, render the command template
and assemble the run request.  Either of the first two steps' exceptions
propagates. -/
def buildRunRequest (cfg : Config) (w : World) (c : ContainerInfo) (v : VolumeInfo)
    (server_name : String) : Except Err RunRequest :=
  match get_extra_volumes_for_backup_container cfg.BACKUP_CONTAINER_VOLUMES with
  | .error e => .error e
  | .ok extra =>
    match pyFormat (substitutions server_name c v (w.md5hex v.source))
        cfg.BACKUP_CONTAINER_COMMAND with
    | .error e => .error e
    | .ok command =>
      .ok { image := cfg.BACKUP_CONTAINER_IMAGE, command := command,
            name := jobName w c v, environment := w.osEnviron,
            volumes := composeVolumes v extra }

/-- _trigger_backup (__main__.py lines 54-74): build the request and submit
it through run_backup_container. -/
def trigger_backup (cfg : Config) (w : World) (server_name : String)
    (c : ContainerInfo) (v : VolumeInfo) : Except Err (Option String) :=
  match buildRunRequest cfg w c v server_name with
  | .error e => .error e
  | .ok req => run_backup_container w req

/-- The inner loop of main (__main__.py lines 99-107): per volume, call
_trigger_backup inside contextlib.suppress(ContainerNotStartedException) and
append its result to backup_container_ids.  Only ContainerNotStartedException
is suppressed (skipping the append); any other exception propagates and a
sentinel None result is appended like an id. -/
def launchVolumes (cfg : Config) (w : World) (server_name : String)
    (c : ContainerInfo) : List VolumeInfo → Except Err (List (Option String))
  | [] => .ok []
  | v :: rest =>
    match trigger_backup cfg w server_name c v with
    | .error (.containerNotStarted _) => launchVolumes cfg w server_name c rest
    | .error e => .error e
    | .ok idOpt =>
      match launchVolumes cfg w server_name c rest with
      | .error e => .error e
      | .ok ids => .ok (idOpt :: ids)

/-- The volume list main computes for a container (__main__.py lines
92-98): the runtime's current mounts filtered by
get_included_container_volumes, with the bind-mount flag read from the
container's own label. -/
def includeBindFlag (c : ContainerInfo) : Bool :=
  lgetD c.labels INCLUDE_BIND_MOUNTS_LABEL "false" = "true"

/-- See includeBindFlag. -/
def volumesOf (w : World) (c : ContainerInfo) : List VolumeInfo :=
  get_included_container_volumes c (w.mounts c.id) (includeBindFlag c)

/-- The outer loop of main (__main__.py lines 88-107) over the eligible
containers, concatenating the per-container id lists. -/
def launchContainers (cfg : Config) (w : World) (server_name : String) :
    List ContainerInfo → Except Err (List (Option String))
  | [] => .ok []
  | c :: rest =>
    match launchVolumes cfg w server_name c (volumesOf w c) with
    | .error e => .error e
    | .ok ids1 =>
      match launchContainers cfg w server_name rest with
      | .error e => .error e
      | .ok ids2 => .ok (ids1 ++ ids2)

/-- The launch phase of main (__main__.py lines 81-107): filter the
discovered containers and run the nested launch loops, producing
backup_container_ids (an early return on no containers yields the same
empty list). -/
def mainLaunch (cfg : Config) (w : World) (server_name : String) :
    Except Err (List (Option String)) :=
  launchContainers cfg w server_name
    (get_enabled_containers w.self_container w.containers cfg.REQUIRE_ENABLE)

/-- get_container_exit_status (containers.py lines 227-240): -1 while the
container's status is not "exited", its ExitCode afterwards. -/
def get_container_exit_status (st : ContainerState) : Int :=
  if st.status ≠ "exited" then -1 else st.exitCode

/-- The wait loop's guard (__main__.py lines 111-114): all tracked jobs
report an exit status other than the still-running sentinel -1 at tick t. -/
def allExited (state : Nat → String → ContainerState) (ids : List String)
    (t : Nat) : Bool :=
  ids.all fun cid => get_container_exit_status (state t cid) != -1

/-- The completion wait loop of main (__main__.py lines 110-118): poll
allExited every 5 time-units.  The body's deadline check
`if time.time() - start_time > 120: pass` has no effect, so the loop leaves
only when allExited holds; state t cid is the runtime's State answer for cid
at tick t.  The fuel argument bounds how many polls we observe: some t means
the loop exited at tick t within fuel polls, none that it was still looping
after fuel polls. -/
def waitLoop (state : Nat → String → ContainerState) (ids : List String) :
    Nat → Nat → Option Nat
  | _, 0 => none
  | t, fuel + 1 =>
    if allExited state ids t then some t else waitLoop state ids (t + 5) fuel

/-- remove_container (containers.py lines 243-260): a NotFound error is
caught (log and return); the model also records that any other APIError from
the removal is not caught. -/
def remove_container (outcome : RemoveOutcome) : Except Err Unit :=
  match outcome with
  | .ok => .ok ()
  | .notFound => .ok ()
  | .apiError code => .error (.apiError code)

/-- The cleanup loop of main (__main__.py lines 119-126): for each tracked
id, a non-zero exit status is logged and the container left in place;
a zero exit status removes the container.  finalState is the runtime's State
answer per id during this loop, removeOutcome its answer to the removal.
The returned list is the ids actually removed, in order. -/
def cleanupPhase (finalState : String → ContainerState)
    (removeOutcome : String → RemoveOutcome) : List String → Except Err (List String)
  | [] => .ok []
  | cid :: rest =>
    if get_container_exit_status (finalState cid) ≠ 0 then
      cleanupPhase finalState removeOutcome rest
    else
      match remove_container (removeOutcome cid) with
      | .error e => .error e
      | .ok _ =>
        match cleanupPhase finalState removeOutcome rest with
        | .error e => .error e
        | .ok removed => .ok (cid :: removed)

deriving instance DecidableEq for Except

/-! ## Helper lemmas -/

/-- A status stuck at "created" drives waitStarted into the timeout: from any
tick t with at least 31 - t polls left, the loop raises
ContainerNotStartedException. -/
theorem waitStarted_stuck (status : Nat → String) (name : String)
    (h : ∀ u, status u = "created") :
    ∀ k t, 31 ≤ t + k →
      waitStarted status name t = .error (.containerNotStarted name) := by
  intro k
  induction k with
  | zero =>
    intro t ht
    rw [waitStarted_eq, h t, if_neg (by simp), if_pos (show t > 30 by omega)]
  | succ n ih =>
    intro t ht
    rw [waitStarted_eq, h t, if_neg (by simp)]
    by_cases hgt : t > 30
    · rw [if_pos hgt]
    · rw [if_neg hgt]
      exact ih (t + 1) (by omega)

/-- The cleanup loop only ever removes ids it was given. -/
theorem cleanupPhase_removed_mem (finalState : String → ContainerState)
    (removeOutcome : String → RemoveOutcome) :
    ∀ (ids removed : List String),
      cleanupPhase finalState removeOutcome ids = .ok removed →
      ∀ x ∈ removed, x ∈ ids := by
  intro ids
  induction ids with
  | nil =>
    intro removed h x hx
    cases h
    exact absurd hx (List.not_mem_nil x)
  | cons cid rest ih =>
    intro removed h x hx
    rw [cleanupPhase] at h
    revert h
    split
    · intro h
      exact List.mem_cons_of_mem _ (ih removed h x hx)
    · split
      · intro h
        cases h
      · split
        · intro h
          cases h
        next removed2 hr2 =>
          intro h
          cases h
          rcases List.mem_cons.mp hx with rfl | hx2
          · exact List.mem_cons_self _ _
          · exact List.mem_cons_of_mem _ (ih removed2 hr2 x hx2)

/-- A successfully built run request carries the deterministic job name. -/
theorem buildRunRequest_ok_name (cfg : Config) (w : World) (c : ContainerInfo)
    (v : VolumeInfo) (server_name : String) (req : RunRequest)
    (h : buildRunRequest cfg w c v server_name = .ok req) :
    req.name = jobName w c v := by
  unfold buildRunRequest at h
  split at h
  · simp at h
  · split at h
    · simp at h
    · cases h
      rfl

/-- The entry loop of the extra-volume parser processes an appended list in
two stages, the second from the accumulator the first produced. -/
theorem parseVolumeEntries_append (acc : VolMap) (l1 l2 : List String) :
    parseVolumeEntries acc (l1 ++ l2)
      = match parseVolumeEntries acc l1 with
        | .ok m => parseVolumeEntries m l2
        | .error e => .error e := by
  induction l1 generalizing acc with
  | nil => rfl
  | cons e rest ih =>
    by_cases he : e = ""
    · simp [parseVolumeEntries, he, ih]
    · simp only [List.cons_append, parseVolumeEntries, if_neg he]
      rcases hv : volumeParts e with _ | ⟨p0, _ | ⟨p1, _ | ⟨p2, ps⟩⟩⟩ <;> simp [hv, ih]

/-! ## Claim C9 -/

/-- C9: a discovered container whose name starts with the reserved backup-job
naming prefix "garrison_" is excluded from the Eligibility Filter's returned
candidate set, for every label map, every require_explicit_enable flag and
every listing it appears in. -/
theorem C9_reserved_name_excluded (self_container : Option String)
    (containers : List ContainerInfo) (require_enabled : Bool) (c : ContainerInfo)
    (h : strStartsWith c.name "garrison_" = true) :
    c ∉ get_enabled_containers self_container containers require_enabled := by
  intro hmem
  rw [get_enabled_containers, List.mem_filter] at hmem
  rcases hmem with ⟨-, hp⟩
  revert hp
  split
  · simp
  · simp [keepContainer, h]

/-- C9 witness: a leftover job container named garrison_leftover is excluded
even when labelled enabled. -/
theorem C9_witness :
    let c : ContainerInfo :=
      ⟨"id9", "garrison_leftover", [("garrison.enable", "true")], none, "img", []⟩
    c ∉ get_enabled_containers none [c] false :=
  C9_reserved_name_excluded none _ false _ (by decide)

/-! ## Claim C8 -/

/-- C8: with require_explicit_enable set, a container with no eligibility
label is excluded and a container labelled "true" (that the naming-prefix
rule and self-exclusion do not reject) is included; a container whose label
is explicitly "false" is excluded for every value of the flag. -/
theorem C8_explicit_enable_policy (self_container : Option String)
    (containers : List ContainerInfo) (cA cB cC : ContainerInfo) (r : Bool)
    (hA : lget cA.labels ENABLE_LABEL = none)
    (hB : lget cB.labels ENABLE_LABEL = some "true")
    (hBn : strStartsWith cB.name "garrison_" = false)
    (hBs : self_container ≠ some cB.id)
    (hBin : cB ∈ containers)
    (hC : lget cC.labels ENABLE_LABEL = some "false") :
    cA ∉ get_enabled_containers self_container containers true
    ∧ cB ∈ get_enabled_containers self_container containers true
    ∧ cC ∉ get_enabled_containers self_container containers r := by
  refine ⟨?_, ?_, ?_⟩
  · intro hmem
    rw [get_enabled_containers, List.mem_filter] at hmem
    rcases hmem with ⟨-, hp⟩
    revert hp
    split
    · simp
    · simp [keepContainer, lgetD, hA]
  · rw [get_enabled_containers, List.mem_filter]
    refine ⟨hBin, ?_⟩
    rw [if_neg hBs]
    simp [keepContainer, lgetD, hB, hBn]
  · intro hmem
    rw [get_enabled_containers, List.mem_filter] at hmem
    rcases hmem with ⟨-, hp⟩
    revert hp
    split
    · simp
    · simp [keepContainer, lgetD, hC]

/-- C8 witness: with require_explicit_enable on, an unlabelled container is
excluded, a container labelled "true" is included, and a container labelled
"false" is excluded (also with the flag off, r := false here). -/
theorem C8_witness :
    let cA : ContainerInfo := ⟨"idA8", "appA8", [], none, "img", []⟩
    let cB : ContainerInfo :=
      ⟨"idB8", "appB8", [("garrison.enable", "true")], none, "img", []⟩
    let cC : ContainerInfo :=
      ⟨"idC8", "appC8", [("garrison.enable", "false")], none, "img", []⟩
    cA ∉ get_enabled_containers none [cA, cB, cC] true
    ∧ cB ∈ get_enabled_containers none [cA, cB, cC] true
    ∧ cC ∉ get_enabled_containers none [cA, cB, cC] false :=
  C8_explicit_enable_policy none _ _ _ _ false
    (by decide) (by decide) (by decide) (by decide) (by decide) (by decide)

/-! ## Claim C4 -/

/-- C4 counterexample: two containers that differ only in the include-list
label make opposite decisions about the same nameless bind mount, with the
bind-mount flag on in both runs — the selection of a mount with no logical
name is NOT independent of the include/exclude labels. -/
theorem C4_counterexample :
    get_included_container_volumes
        ⟨"cid4", "app4", [(VOLUME_INCLUDE_LABEL, "data")], none, "img", []⟩
        [⟨"bind", none, "/etc/conf", "/etc/conf"⟩] true = []
    ∧ get_included_container_volumes ⟨"cid4", "app4", [], none, "img", []⟩
        [⟨"bind", none, "/etc/conf", "/etc/conf"⟩] true
      = [⟨"bind", none, "/etc/conf", "/etc/conf"⟩] := by
  exact ⟨by decide, by decide⟩

/-- C4 amended: a mount with no logical name is filtered by the bind-mount
flag AND by the include/exclude lists, which test its effective name — its
source path with the project prefix stripped; it behaves exactly as a mount
whose logical name is its source path. -/
theorem C4_nameless_mount_named_by_source (c : ContainerInfo) (m : Mount)
    (flag : Bool) (hname : m.name = none) :
    get_included_container_volumes c [m] flag
      = (if mountIncluded (parseVolLabel (lget c.labels VOLUME_INCLUDE_LABEL))
            (parseVolLabel (lget c.labels VOLUME_EXCLUDE_LABEL)) flag c.project m
         then [toVolumeInfo m] else [])
    ∧ effectiveVolumeName c.project m = dropProjectPre c.project m.source
    ∧ mountIncluded (parseVolLabel (lget c.labels VOLUME_INCLUDE_LABEL))
        (parseVolLabel (lget c.labels VOLUME_EXCLUDE_LABEL)) flag c.project m
      = mountIncluded (parseVolLabel (lget c.labels VOLUME_INCLUDE_LABEL))
          (parseVolLabel (lget c.labels VOLUME_EXCLUDE_LABEL)) flag c.project
          ⟨m.type, some m.source, m.source, m.destination⟩ := by
  refine ⟨rfl, ?_, ?_⟩
  · rw [effectiveVolumeName, hname]
    rfl
  · unfold mountIncluded effectiveVolumeName
    rw [hname]
    rfl

/-- C4 witness: a nameless bind mount of a compose-project container, with
the bind-mount flag on and an include list present. -/
theorem C4_witness :
    let c : ContainerInfo :=
      ⟨"cidW4", "appW4", [(VOLUME_INCLUDE_LABEL, "data")], some "proj", "img", []⟩
    let m : Mount := ⟨"bind", none, "proj_conf", "/etc/conf"⟩
    get_included_container_volumes c [m] true
      = (if mountIncluded (parseVolLabel (lget c.labels VOLUME_INCLUDE_LABEL))
            (parseVolLabel (lget c.labels VOLUME_EXCLUDE_LABEL)) true c.project m
         then [toVolumeInfo m] else [])
    ∧ effectiveVolumeName c.project m = dropProjectPre c.project m.source
    ∧ mountIncluded (parseVolLabel (lget c.labels VOLUME_INCLUDE_LABEL))
        (parseVolLabel (lget c.labels VOLUME_EXCLUDE_LABEL)) true c.project m
      = mountIncluded (parseVolLabel (lget c.labels VOLUME_INCLUDE_LABEL))
          (parseVolLabel (lget c.labels VOLUME_EXCLUDE_LABEL)) true c.project
          ⟨m.type, some m.source, m.source, m.destination⟩ :=
  C4_nameless_mount_named_by_source _ _ true rfl

/-! ## Claim C3 -/

/-- C3: the completion wait loop's deadline branch has no effect.  With one
tracked job whose runtime state never reaches "exited" (exit status stays at
the still-running sentinel -1), the loop is still running after every number
of polls — in particular well past the 120-time-unit deadline (25 polls at 5
time-units) — contradicting the claim that the loop exits once the deadline
elapses. -/
theorem C3_completion_deadline_no_exit :
    ∀ (fuel t : Nat),
      waitLoop (fun _ _ => ⟨"running", 0⟩) ["job1"] t fuel = none := by
  intro fuel
  induction fuel with
  | zero => intro t; rfl
  | succ n ih =>
    intro t
    have hall : allExited (fun _ _ => ⟨"running", 0⟩) ["job1"] t = false := rfl
    simp only [waitLoop, hall, Bool.false_eq_true, if_false]
    exact ih (t + 5)

/-! ## Claim C7 -/

/-- C7: after the wait loop, the cleanup pass removes exactly the tracked
jobs whose exit status is zero — a non-zero status only logs a warning and
leaves the job in place — and a removal answered by NotFound is absorbed, so
no exception propagates as long as removals only fail with NotFound. -/
theorem C7_cleanup_removes_only_successes (finalState : String → ContainerState)
    (removeOutcome : String → RemoveOutcome) (ids : List String)
    (h : ∀ cid ∈ ids, get_container_exit_status (finalState cid) = 0 →
        removeOutcome cid = .ok ∨ removeOutcome cid = .notFound) :
    cleanupPhase finalState removeOutcome ids
      = .ok (ids.filter fun cid => decide (get_container_exit_status (finalState cid) = 0)) := by
  induction ids with
  | nil => rfl
  | cons cid rest ih =>
    have hcid := h cid (List.mem_cons_self cid rest)
    have hrest := ih fun x hx => h x (List.mem_cons_of_mem _ hx)
    by_cases hz : get_container_exit_status (finalState cid) = 0
    · rcases hcid hz with hro | hro <;>
        simp [cleanupPhase, hz, hro, remove_container, hrest, List.filter_cons]
    · simp [cleanupPhase, hz, hrest, List.filter_cons]

/-- C7 witness: of two tracked jobs, the one that exited 0 is removed even
though the runtime answers NotFound, and the one that exited 137 is left in
place. -/
theorem C7_witness :
    cleanupPhase
        (fun cid => if cid = "a" then ⟨"exited", 0⟩ else ⟨"exited", 137⟩)
        (fun _ => .notFound) ["a", "b"]
      = .ok (["a", "b"].filter fun cid =>
          decide (get_container_exit_status
            ((fun cid => if cid = "a" then (⟨"exited", 0⟩ : ContainerState)
              else ⟨"exited", 137⟩) cid) = 0)) :=
  C7_cleanup_removes_only_successes _ _ ["a", "b"] (by decide)

/-! ## Claim C1 -/

/-- A run with one eligible container carrying one selected volume, whose
job submission is answered with APIError 409 (a job with the deterministic
name already exists). -/
def conflictContainer : ContainerInfo := ⟨"cid1", "app1", [], none, "img", []⟩

/-- The single mounted volume of conflictContainer. -/
def conflictMount : Mount := ⟨"volume", some "data", "/src", "/data"⟩

/-- See conflictContainer. -/
def conflictWorld : World :=
  ⟨none, [conflictContainer], fun _ => [conflictMount], fun _ => .apiError 409,
   fun _ _ => "running", fun s => s, []⟩

/-- See conflictContainer. -/
def conflictConfig : Config := ⟨"img", "backup", "", false⟩

/-- C1: on a name conflict (APIError 409) the Job Launcher does return the
non-fatal "already running" sentinel instead of raising — run_backup_container
falls off with a bare return, i.e. None — but the Orchestrator does NOT skip
tracking the pair: main appends the sentinel to backup_container_ids
unconditionally, so the tracked list ends as [None] rather than [].  (The
None entry is later handed to get_container_exit_status, whose
client.containers.get(None) call raises.) -/
theorem C1_name_conflict_sentinel_is_tracked :
    trigger_backup conflictConfig conflictWorld "srv" conflictContainer
        (toVolumeInfo conflictMount) = .ok none
    ∧ mainLaunch conflictConfig conflictWorld "srv" = .ok [none] := by
  exact ⟨by decide, by decide⟩

/-! ## Claim C2 -/

/-- Two eligible containers, one selected volume each; the command template
references the unrecognized placeholder {bogus}. -/
def templateContainerA : ContainerInfo := ⟨"cidA", "appA", [], none, "img", []⟩

/-- See templateContainerA. -/
def templateContainerB : ContainerInfo := ⟨"cidB", "appB", [], none, "img", []⟩

/-- See templateContainerA. -/
def templateWorld : World :=
  ⟨none, [templateContainerA, templateContainerB],
   fun _ => [⟨"volume", some "data", "/srcA", "/dst"⟩],
   fun _ => .ok "jid", fun _ _ => "running", fun s => s, []⟩

/-- See templateContainerA. -/
def templateConfig : Config := ⟨"img", "{bogus}", "", false⟩

/-- C2 counterexample: with the template "{bogus}" the whole run aborts with
the template KeyError — mainLaunch returns the error instead of an id list,
so the second container's volume is never launched; the claim's assertion
that the Orchestrator continues with the remaining containers and volumes is
false (main suppresses only ContainerNotStartedException). -/
theorem C2_counterexample :
    mainLaunch templateConfig templateWorld "srv" = .error (.keyError "bogus") := by
  decide

/-- C2 amended: rendering a template with an unrecognized placeholder raises
a KeyError that surfaces to the caller, and the error is NOT confined to the
one (container, volume) launch: it propagates through the launch loops and
out of the Orchestrator, aborting the run before any remaining volume or
container is processed. -/
theorem C2_template_error_aborts_run (cfg : Config) (w : World)
    (server_name : String) (c : ContainerInfo) (v : VolumeInfo)
    (vs : List VolumeInfo) (cs : List ContainerInfo) (k : String) (extra : VolMap)
    (hex : get_extra_volumes_for_backup_container cfg.BACKUP_CONTAINER_VOLUMES
      = .ok extra)
    (hfmt : pyFormat (substitutions server_name c v (w.md5hex v.source))
      cfg.BACKUP_CONTAINER_COMMAND = .error (.keyError k))
    (hvols : volumesOf w c = v :: vs)
    (hcs : get_enabled_containers w.self_container w.containers cfg.REQUIRE_ENABLE
      = c :: cs) :
    trigger_backup cfg w server_name c v = .error (.keyError k)
    ∧ launchVolumes cfg w server_name c (v :: vs) = .error (.keyError k)
    ∧ mainLaunch cfg w server_name = .error (.keyError k) := by
  have htr : trigger_backup cfg w server_name c v = .error (.keyError k) := by
    unfold trigger_backup buildRunRequest
    rw [hex, hfmt]
  have hlv : launchVolumes cfg w server_name c (v :: vs) = .error (.keyError k) := by
    simp [launchVolumes, htr]
  refine ⟨htr, hlv, ?_⟩
  unfold mainLaunch
  rw [hcs]
  simp [launchContainers, hvols, hlv]

/-- C2 witness: the amended behaviour at the concrete two-container world —
the KeyError from the first pair's template rendering aborts the whole
launch phase. -/
theorem C2_witness :
    trigger_backup templateConfig templateWorld "srv" templateContainerA
        ⟨"volume", some "data", "/srcA", "/dst"⟩ = .error (.keyError "bogus")
    ∧ launchVolumes templateConfig templateWorld "srv" templateContainerA
        (⟨"volume", some "data", "/srcA", "/dst"⟩ :: []) = .error (.keyError "bogus")
    ∧ mainLaunch templateConfig templateWorld "srv" = .error (.keyError "bogus") :=
  C2_template_error_aborts_run templateConfig templateWorld "srv" templateContainerA
    ⟨"volume", some "data", "/srcA", "/dst"⟩ [] [templateContainerB] "bogus" []
    (by decide) (by decide) (by decide) (by decide)

/-! ## Claim C10 -/

/-- A configuration whose extra-volume specification is the single-field
entry "data" (no ':' separator). -/
def indexConfig : Config := ⟨"img", "backup", "data", false⟩

/-- An arbitrary pair to launch under indexConfig. -/
def indexContainer : ContainerInfo := ⟨"cidX", "appX", [], none, "img", []⟩

/-- See indexContainer. -/
def indexVolume : VolumeInfo := ⟨"volume", some "data", "/sx", "/dx"⟩

/-- See indexContainer. -/
def indexWorld : World :=
  ⟨none, [indexContainer], fun _ => [⟨"volume", some "data", "/sx", "/dx"⟩],
   fun _ => .ok "jidX", fun _ _ => "running", fun s => s, []⟩

/-- C10: extra-volume parsing is partial — a non-empty comma-separated entry
with no ':' separator drives volume_parts[1] out of range, raising
IndexError instead of returning a mapping, and the exception propagates out
of the current pair's launch (trigger_backup re-raises it). -/
theorem C10_single_field_entry_raises (cfg : Config) (w : World)
    (server_name : String) (c : ContainerInfo) (v : VolumeInfo)
    (pre post : List String) (s : String) (m : VolMap)
    (hne : s ≠ "")
    (hone : (pySplit s ':').length = 1)
    (hsplit : pySplit cfg.BACKUP_CONTAINER_VOLUMES ',' = pre ++ s :: post)
    (hpre : parseVolumeEntries [] pre = .ok m) :
    get_extra_volumes_for_backup_container cfg.BACKUP_CONTAINER_VOLUMES
      = .error .indexError
    ∧ trigger_backup cfg w server_name c v = .error .indexError := by
  have h1 : get_extra_volumes_for_backup_container cfg.BACKUP_CONTAINER_VOLUMES
      = .error .indexError := by
    rw [get_extra_volumes_for_backup_container, hsplit,
      parseVolumeEntries_append, hpre]
    obtain ⟨p, hp⟩ := List.length_eq_one.mp hone
    simp [parseVolumeEntries, hne, volumeParts, hp]
  refine ⟨h1, ?_⟩
  unfold trigger_backup buildRunRequest
  rw [h1]

/-- C10 witness: the specification string "data" fails the whole launch of
the current pair with IndexError. -/
theorem C10_witness :
    get_extra_volumes_for_backup_container indexConfig.BACKUP_CONTAINER_VOLUMES
      = .error .indexError
    ∧ trigger_backup indexConfig indexWorld "srv" indexContainer indexVolume
      = .error .indexError :=
  C10_single_field_entry_raises indexConfig indexWorld "srv" indexContainer
    indexVolume [] [] "data" [] (by decide) (by decide) (by decide) rfl

/-! ## Claim C6 -/

/-- C6: a submitted job that stays in the "created" state past the
30-time-unit start deadline (polled every time-unit) fails the launch with
ContainerNotStartedException; the Orchestrator's suppress block then skips
the append, so the pair contributes nothing to the tracked list and the loop
continues with the remaining volumes; and since cleanup removes only tracked
ids, the unstarted job is never removed. -/
theorem C6_start_timeout_pair_isolated (cfg : Config) (w : World)
    (server_name : String) (c : ContainerInfo) (v : VolumeInfo)
    (vs : List VolumeInfo) (req : RunRequest) (cid : String)
    (finalState : String → ContainerState) (removeOutcome : String → RemoveOutcome)
    (ids removed : List String) (x : String)
    (hreq : buildRunRequest cfg w c v server_name = .ok req)
    (hout : w.runOutcome (jobName w c v) = .ok cid)
    (hstuck : ∀ u, w.startStatus cid u = "created")
    (hclean : cleanupPhase finalState removeOutcome ids = .ok removed)
    (hx : x ∈ removed) :
    trigger_backup cfg w server_name c v
      = .error (.containerNotStarted (jobName w c v))
    ∧ launchVolumes cfg w server_name c (v :: vs)
      = launchVolumes cfg w server_name c vs
    ∧ x ∈ ids := by
  have hname := buildRunRequest_ok_name cfg w c v server_name req hreq
  have hout2 : w.runOutcome req.name = .ok cid := by
    rw [hname]
    exact hout
  have hws : waitStarted (w.startStatus cid) req.name 0
      = .error (.containerNotStarted (jobName w c v)) := by
    rw [hname]
    exact waitStarted_stuck (w.startStatus cid) (jobName w c v) hstuck 31 0 (by omega)
  have hrun : run_backup_container w req
      = .error (.containerNotStarted (jobName w c v)) := by
    unfold run_backup_container
    rw [hout2]
    simp [hws]
  have htr : trigger_backup cfg w server_name c v
      = .error (.containerNotStarted (jobName w c v)) := by
    unfold trigger_backup
    rw [hreq]
    exact hrun
  refine ⟨htr, ?_,
    cleanupPhase_removed_mem finalState removeOutcome ids removed hclean x hx⟩
  simp [launchVolumes, htr]

/-- The concrete pair for C6's witness: the runtime accepts the run but the
job's status stays "created" forever. -/
def stuckContainer : ContainerInfo := ⟨"cid6", "app6", [], none, "img", []⟩

/-- See stuckContainer. -/
def stuckVolume : VolumeInfo := ⟨"volume", some "data", "/s6", "/d6"⟩

/-- See stuckContainer. -/
def stuckWorld : World :=
  ⟨none, [stuckContainer], fun _ => [⟨"volume", some "data", "/s6", "/d6"⟩],
   fun _ => .ok "jid6", fun _ _ => "created", fun s => s, []⟩

/-- See stuckContainer. -/
def stuckConfig : Config := ⟨"img", "backup", "", false⟩

/-- The request that launch builds for the stuck pair. -/
def stuckRequest : RunRequest :=
  ⟨"img", "backup", "garrison_cid6_/s6", [], [(some "data", ⟨"/d6", "ro"⟩)]⟩

/-- C6 witness: the stuck pair's launch raises ContainerNotStartedException,
the launch loop continues as if the pair were absent, and a cleanup that
removed "jid7" only did so because "jid7" was tracked. -/
theorem C6_witness :
    trigger_backup stuckConfig stuckWorld "srv" stuckContainer stuckVolume
      = .error (.containerNotStarted (jobName stuckWorld stuckContainer stuckVolume))
    ∧ launchVolumes stuckConfig stuckWorld "srv" stuckContainer (stuckVolume :: [])
      = launchVolumes stuckConfig stuckWorld "srv" stuckContainer []
    ∧ "jid7" ∈ ["jid7"] :=
  C6_start_timeout_pair_isolated stuckConfig stuckWorld "srv" stuckContainer
    stuckVolume [] stuckRequest "jid6" (fun _ => ⟨"exited", 0⟩) (fun _ => .ok)
    ["jid7"] ["jid7"] "jid7" (by decide) rfl (fun _ => rfl) (by decide) (by decide)

/-! ## Claim C5 -/

/-- The keys of a volumes dict. -/
def keysOf (m : VolMap) : List (Option String) :=
  m.map Prod.fst

/-- A volumes dict with pairwise distinct keys, as every Python dict is. -/
def NodupKeys (m : VolMap) : Prop :=
  (keysOf m).Nodup

/-- Assigning a key makes it found, at the assigned value. -/
theorem lookupKey_setKey_self (m : VolMap) (k : Option String) (v : VolumeSpec) :
    lookupKey (setKey k v m) k = some v := by
  induction m with
  | nil => simp [setKey, lookupKey]
  | cons p rest ih =>
    obtain ⟨k1, v1⟩ := p
    by_cases h : k1 = k
    · simp [setKey, h, lookupKey]
    · simp [setKey, h, lookupKey, ih]

/-- Assigning one key leaves every other key's lookup unchanged. -/
theorem lookupKey_setKey_ne (m : VolMap) (k k2 : Option String) (v : VolumeSpec)
    (h : k2 ≠ k) : lookupKey (setKey k v m) k2 = lookupKey m k2 := by
  have hkk2 : k ≠ k2 := fun hh => h hh.symm
  induction m with
  | nil => simp [setKey, lookupKey, hkk2]
  | cons p rest ih =>
    obtain ⟨k1, v1⟩ := p
    by_cases h1 : k1 = k
    · subst h1
      simp [setKey, lookupKey, hkk2]
    · simp only [setKey, if_neg h1, lookupKey]
      by_cases h2 : k1 = k2
      · simp [h2]
      · simp [h2, ih]

/-- A key outside a dict's key list is not found. -/
theorem lookupKey_eq_none_of_not_mem (m : VolMap) (k : Option String)
    (h : k ∉ keysOf m) : lookupKey m k = none := by
  induction m with
  | nil => rfl
  | cons p rest ih =>
    obtain ⟨k1, v1⟩ := p
    rw [keysOf, List.map_cons, List.mem_cons] at h
    push_neg at h
    rw [lookupKey, if_neg (fun hh => h.1 hh.symm)]
    exact ih h.2

/-- Membership in the key list after an assignment. -/
theorem mem_keysOf_setKey (m : VolMap) (k k2 : Option String) (v : VolumeSpec) :
    k2 ∈ keysOf (setKey k v m) ↔ k2 = k ∨ k2 ∈ keysOf m := by
  induction m with
  | nil => simp [setKey, keysOf]
  | cons p rest ih =>
    obtain ⟨k1, v1⟩ := p
    unfold keysOf at ih ⊢
    by_cases h1 : k1 = k
    · subst h1
      have hset : setKey k1 v ((k1, v1) :: rest) = (k1, v) :: rest := by
        simp [setKey]
      rw [hset, List.map_cons, List.mem_cons, List.map_cons, List.mem_cons]
      tauto
    · have hset : setKey k v ((k1, v1) :: rest) = (k1, v1) :: setKey k v rest := by
        simp [setKey, h1]
      rw [hset, List.map_cons, List.mem_cons, List.map_cons, List.mem_cons, ih]
      tauto

/-- Assignment preserves key distinctness. -/
theorem nodupKeys_setKey (m : VolMap) (k : Option String) (v : VolumeSpec)
    (h : NodupKeys m) : NodupKeys (setKey k v m) := by
  induction m with
  | nil => simp [setKey, NodupKeys, keysOf]
  | cons p rest ih =>
    obtain ⟨k1, v1⟩ := p
    unfold NodupKeys keysOf at h ih ⊢
    rw [List.map_cons, List.nodup_cons] at h
    obtain ⟨hk1, hrest⟩ := h
    by_cases h1 : k1 = k
    · subst h1
      have hset : setKey k1 v ((k1, v1) :: rest) = (k1, v) :: rest := by
        simp [setKey]
      rw [hset, List.map_cons, List.nodup_cons]
      exact ⟨hk1, hrest⟩
    · have hset : setKey k v ((k1, v1) :: rest) = (k1, v1) :: setKey k v rest := by
        simp [setKey, h1]
      rw [hset, List.map_cons, List.nodup_cons]
      constructor
      · intro hmem
        rcases (mem_keysOf_setKey rest k k1 v).mp hmem with h2 | hmem2
        · exact h1 h2
        · exact hk1 hmem2
      · exact ih hrest

/-- The extra-volume parser, fed a dict with distinct keys, returns a dict
with distinct keys: every insertion goes through setKey. -/
theorem parseVolumeEntries_nodup : ∀ (l : List String) (acc m : VolMap),
    NodupKeys acc → parseVolumeEntries acc l = .ok m → NodupKeys m := by
  intro l
  induction l with
  | nil =>
    intro acc m h heq
    cases heq
    exact h
  | cons e rest ih =>
    intro acc m h heq
    rw [parseVolumeEntries] at heq
    by_cases he : e = ""
    · rw [if_pos he] at heq
      exact ih acc m h heq
    · rw [if_neg he] at heq
      rcases hv : volumeParts e with _ | ⟨p0, _ | ⟨p1, _ | ⟨p2, ps⟩⟩⟩ <;> rw [hv] at heq
      · simp at heq
      · simp at heq
      · simp at heq
      · exact ih _ m (nodupKeys_setKey _ _ _ h) heq

/-- Folding setKey over entries none of which hold the key leaves the key's
lookup at its base value. -/
theorem lookupKey_foldl_setKey_of_none : ∀ (l base : VolMap) (k : Option String),
    lookupKey l k = none →
    lookupKey (l.foldl (fun m p => setKey p.1 p.2 m) base) k = lookupKey base k := by
  intro l
  induction l with
  | nil =>
    intro base k h
    rfl
  | cons p rest ih =>
    intro base k h
    obtain ⟨k1, v1⟩ := p
    rw [lookupKey] at h
    by_cases h1 : k1 = k
    · rw [if_pos h1] at h
      simp at h
    · rw [if_neg h1] at h
      rw [List.foldl_cons, ih (setKey k1 v1 base) k h]
      exact lookupKey_setKey_ne base k1 k v1 (fun hh => h1 hh.symm)

/-- Folding setKey over a distinct-keyed entry list realizes each entry:
the fold's result finds every entry's key at its value. -/
theorem lookupKey_foldl_setKey_of_some : ∀ (l base : VolMap) (k : Option String)
    (sp : VolumeSpec), NodupKeys l → lookupKey l k = some sp →
    lookupKey (l.foldl (fun m p => setKey p.1 p.2 m) base) k = some sp := by
  intro l
  induction l with
  | nil =>
    intro base k sp hnd h
    simp [lookupKey] at h
  | cons p rest ih =>
    intro base k sp hnd h
    obtain ⟨k1, v1⟩ := p
    unfold NodupKeys keysOf at hnd
    rw [List.map_cons, List.nodup_cons] at hnd
    obtain ⟨hk1, hnd2⟩ := hnd
    rw [lookupKey] at h
    rw [List.foldl_cons]
    by_cases h1 : k1 = k
    · rw [if_pos h1] at h
      cases h
      subst h1
      have hnone : lookupKey rest k1 = none :=
        lookupKey_eq_none_of_not_mem rest k1 hk1
      rw [lookupKey_foldl_setKey_of_none rest _ k1 hnone]
      apply lookupKey_setKey_self
    · rw [if_neg h1] at h
      exact ih (setKey k1 v1 base) k sp hnd2 h

/-- A configuration with one extra mount "/bk:/backup" and a named target
volume whose source path differs from its logical name, as for every
docker-managed volume. -/
def mappingConfig : Config := ⟨"img", "backup", "/bk:/backup", false⟩

/-- See mappingConfig. -/
def mappingContainer : ContainerInfo := ⟨"cidM", "appM", [], none, "img", []⟩

/-- See mappingConfig. -/
def mappingVolume : VolumeInfo :=
  ⟨"volume", some "data", "/var/lib/docker/volumes/data/_data", "/data"⟩

/-- See mappingConfig. -/
def mappingWorld : World :=
  ⟨none, [mappingContainer],
   fun _ => [⟨"volume", some "data", "/var/lib/docker/volumes/data/_data", "/data"⟩],
   fun _ => .ok "jidM", fun _ _ => "running", fun s => s, []⟩

/-- The run request built for the mapping pair. -/
def mappingRequest : RunRequest :=
  ⟨"img", "backup", "garrison_cidM_/var/lib/docker/volumes/data/_data", [],
   [(some "data", ⟨"/data", "ro"⟩), (some "/bk", ⟨"/backup", "rw"⟩)]⟩

/-- C5 counterexample: the composed volume mapping does NOT contain the
target volume under its source — the lookup of the volume's source path
finds nothing — because the dict is keyed by the volume's logical name,
where the read-only entry at the original destination actually sits. -/
theorem C5_counterexample :
    (buildRunRequest mappingConfig mappingWorld mappingContainer mappingVolume
        "srv").map
        (fun req => lookupKey req.volumes (some "/var/lib/docker/volumes/data/_data"))
      = .ok none
    ∧ (buildRunRequest mappingConfig mappingWorld mappingContainer mappingVolume
        "srv").map (fun req => lookupKey req.volumes (some "data"))
      = .ok (some ⟨"/data", "ro"⟩) := by
  exact ⟨by decide, by decide⟩

/-- C5 amended: the composed mapping contains the target volume identified
by its logical name (not its source), mounted read-only at its original
destination — provided no extra mount reuses that key, which would override
the entry — plus every operator-supplied extra mount; an extra mount given
as source:dest with no mode parses with the read-write default. -/
theorem C5_volume_mapping_keyed_by_name (cfg : Config) (w : World)
    (c : ContainerInfo) (v : VolumeInfo) (server_name : String) (extra : VolMap)
    (req : RunRequest) (k2 : Option String) (sp2 : VolumeSpec) (s d : String)
    (hex : get_extra_volumes_for_backup_container cfg.BACKUP_CONTAINER_VOLUMES
      = .ok extra)
    (hreq : buildRunRequest cfg w c v server_name = .ok req)
    (hnov : lookupKey extra v.name = none)
    (hk2 : lookupKey extra k2 = some sp2)
    (hsd : pySplit (s ++ ":" ++ d) ':' = [s, d]) :
    lookupKey req.volumes v.name = some ⟨v.destination, "ro"⟩
    ∧ lookupKey req.volumes k2 = some sp2
    ∧ parseVolumeEntries [] [s ++ ":" ++ d] = .ok [(some s, ⟨d, "rw"⟩)] := by
  have hvols : req.volumes = composeVolumes v extra := by
    unfold buildRunRequest at hreq
    rw [hex] at hreq
    rcases hfmt : pyFormat (substitutions server_name c v (w.md5hex v.source))
        cfg.BACKUP_CONTAINER_COMMAND with e | cmd
    · rw [hfmt] at hreq
      simp at hreq
    · rw [hfmt] at hreq
      cases hreq
      rfl
  have hnd : NodupKeys extra := by
    rw [get_extra_volumes_for_backup_container] at hex
    exact parseVolumeEntries_nodup _ [] extra (by simp [NodupKeys, keysOf]) hex
  refine ⟨?_, ?_, ?_⟩
  · rw [hvols, composeVolumes,
      lookupKey_foldl_setKey_of_none extra _ v.name hnov, lookupKey_setKey_self]
  · rw [hvols, composeVolumes,
      lookupKey_foldl_setKey_of_some extra _ k2 sp2 hnd hk2]
  · have hne2 : s ++ ":" ++ d ≠ "" := by
      intro he
      rw [he] at hsd
      simp [pySplit, splitOnChar] at hsd
    simp [parseVolumeEntries, hne2, volumeParts, hsd, setKey]

/-- C5 witness: the amended mapping facts at the concrete named volume and
the "/bk:/backup" extra mount. -/
theorem C5_witness :
    lookupKey mappingRequest.volumes mappingVolume.name
      = some ⟨mappingVolume.destination, "ro"⟩
    ∧ lookupKey mappingRequest.volumes (some "/bk") = some ⟨"/backup", "rw"⟩
    ∧ parseVolumeEntries [] ["/bk" ++ ":" ++ "/backup"]
      = .ok [(some "/bk", ⟨"/backup", "rw"⟩)] :=
  C5_volume_mapping_keyed_by_name mappingConfig mappingWorld mappingContainer
    mappingVolume "srv" [(some "/bk", ⟨"/backup", "rw"⟩)] mappingRequest
    (some "/bk") ⟨"/backup", "rw"⟩ "/bk" "/backup"
    (by decide) (by decide) (by decide) (by decide) (by decide)

end Garrison
